import Mathlib

/-!
Verification of the A2A (agent-to-agent) communication core of the `algent`
repository: the wire envelope (`src/core/message.py`), the security gate
(`src/core/security.py`), the Redis-backed bus client (`src/a2a/client.py`)
and the agent dispatcher/correlator (`src/core/agent.py`), shallowly
embedded in Lean.  Wall-clock time is modelled by integers (the code reads a real-valued clock; only ordering and differences matter here), Python dicts
by association structures in insertion order, JSON data by the mutual
inductive `JValue`, and the nondeterministic inputs of the code (fresh
UUIDs, the clock) are passed explicitly.
-/

mutual
/-- A JSON-shaped Python value: the payload of an `A2AMessage` is a
string-keyed dict whose values are arbitrary JSON data. -/
inductive JValue : Type where
  | jnull : JValue
  | jbool (b : Bool) : JValue
  | jnum (n : Int) : JValue
  | jstr (s : String) : JValue
  | jarr (xs : JList) : JValue
  | jobj (fs : JFields) : JValue
deriving Repr, DecidableEq

/-- A list of JSON values (the elements of a JSON array). -/
inductive JList : Type where
  | jnil : JList
  | jcons (hd : JValue) (tl : JList) : JList
deriving Repr, DecidableEq

/-- The bindings of a JSON object, in dict insertion order. -/
inductive JFields : Type where
  | fnil : JFields
  | fcons (k : String) (v : JValue) (tl : JFields) : JFields
deriving Repr, DecidableEq
end

/-- The bindings of an object as a Lean list of pairs. -/
def JFields.toList : JFields → List (String × JValue)
  | .fnil => []
  | .fcons k v tl => (k, v) :: tl.toList

/-- Rebuild an object from a list of bindings. -/
def JFields.ofList : List (String × JValue) → JFields
  | [] => .fnil
  | (k, v) :: tl => .fcons k v (JFields.ofList tl)

/-- Python `dict.get(key)`: the first binding for `key`, if any (a Python
dict cannot hold duplicate keys, so the first binding is the binding). -/
def JFields.get : JFields → String → Option JValue
  | .fnil, _ => none
  | .fcons k2 v tl, k => if k2 = k then some v else tl.get k

/-- One character of a Python `repr()` string literal quoted with `q`: the
backslash, the chosen quote and the common control characters are escaped,
everything else is emitted as-is. -/
def pyReprChar (q : Char) (c : Char) : String :=
  if c = '\\' then "\\\\"
  else if c = q then "\\" ++ String.singleton q
  else if c = '\n' then "\\n"
  else if c = '\t' then "\\t"
  else if c = '\r' then "\\r"
  else String.singleton c

/-- Python `repr()` of a string: single-quoted, except that a string
containing a single quote but no double quote is double-quoted. -/
def pyReprStr (s : String) : String :=
  let q : Char := if s.data.contains '\x27' && !(s.data.contains '"') then '"' else '\x27'
  String.singleton q ++ String.join (s.data.map (pyReprChar q)) ++ String.singleton q

mutual
/-- Python `repr()` of a JSON-shaped value: what `str()` applies to the
elements of a list or dict when rendering the container. -/
def pyRepr : JValue → String
  | .jnull => "None"
  | .jbool b => if b then "True" else "False"
  | .jnum n => toString n
  | .jstr s => pyReprStr s
  | .jarr xs => "[" ++ pyReprJList xs ++ "]"
  | .jobj fs => "\x7b" ++ pyReprJFields fs ++ "\x7d"
termination_by structural v => v

def pyReprJList : JList → String
  | .jnil => ""
  | .jcons x .jnil => pyRepr x
  | .jcons x (.jcons y xs) => pyRepr x ++ ", " ++ pyReprJList (.jcons y xs)
termination_by structural v => v

def pyReprJFields : JFields → String
  | .fnil => ""
  | .fcons k v .fnil => pyReprStr k ++ ": " ++ pyRepr v
  | .fcons k v (.fcons k2 v2 fs) =>
      pyReprStr k ++ ": " ++ pyRepr v ++ ", " ++ pyReprJFields (.fcons k2 v2 fs)
termination_by structural v => v
end

/-- Python `str()` of a JSON-shaped value as interpolated by an f-string:
`None` prints as `"None"`, booleans capitalised, strings unquoted, and a
list or dict as its `repr` (element-wise with quoted strings). -/
def pyStr : JValue → String
  | .jnull => "None"
  | .jbool b => if b then "True" else "False"
  | .jnum n => toString n
  | .jstr s => s
  | .jarr xs => "[" ++ pyReprJList xs ++ "]"
  | .jobj fs => "\x7b" ++ pyReprJFields fs ++ "\x7d"

/-- Python `str()` of a `dict.get` result: `"None"` when the key is absent. -/
def pyStrOpt : Option JValue → String
  | none => "None"
  | some v => pyStr v

/-- Code-point lexicographic `≤` on character lists: the order Python uses
to compare `str` keys when `json.dumps(..., sort_keys=True)` sorts them. -/
def strLeB : List Char → List Char → Bool
  | [], _ => true
  | _ :: _, [] => false
  | a :: as, b :: bs =>
      if a.toNat < b.toNat then true
      else if b.toNat < a.toNat then false
      else strLeB as bs

/-- Key order of `json.dumps(..., sort_keys=True)` on object bindings. -/
def keyLE (a b : String × JValue) : Prop := strLeB a.1.data b.1.data = true

instance : DecidableRel keyLE :=
  fun a b => inferInstanceAs (Decidable (strLeB a.1.data b.1.data = true))

/-- Sort an object's bindings by key, as `json.dumps(..., sort_keys=True)`
does before emitting them. -/
def sortFields (fs : List (String × JValue)) : List (String × JValue) :=
  List.insertionSort keyLE fs

mutual
/-- Recursively sort every object's bindings by key: the canonical form a
JSON value takes under `json.dumps(..., sort_keys=True)`. -/
def canon : JValue → JValue
  | .jnull => .jnull
  | .jbool b => .jbool b
  | .jnum n => .jnum n
  | .jstr s => .jstr s
  | .jarr xs => .jarr (canonList xs)
  | .jobj fs => .jobj (JFields.ofList (sortFields (canonFields fs).toList))
termination_by structural v => v

def canonList : JList → JList
  | .jnil => .jnil
  | .jcons x xs => .jcons (canon x) (canonList xs)
termination_by structural v => v

def canonFields : JFields → JFields
  | .fnil => .fnil
  | .fcons k v tl => .fcons k (canon v) (canonFields tl)
termination_by structural v => v
end

/-- JSON escaping of one character, as done by `json.dumps` for the
characters that occur in this system's messages. -/
def escapeJsonChar (c : Char) : String :=
  if c = '\\' then "\\\\"
  else if c = '"' then "\\\""
  else if c = '\n' then "\\n"
  else if c = '\t' then "\\t"
  else if c = '\r' then "\\r"
  else String.singleton c

/-- A JSON string literal: quoted and escaped. -/
def jsonString (s : String) : String :=
  "\"" ++ String.join (s.data.map escapeJsonChar) ++ "\""

mutual
/-- Serialise a JSON value with `json.dumps`'s default separators, emitting
object bindings in list order (`canon` is applied first to obtain the
sorted-keys encoding). -/
def encodeJValue : JValue → String
  | .jnull => "null"
  | .jbool b => if b then "true" else "false"
  | .jnum n => toString n
  | .jstr s => jsonString s
  | .jarr xs => "[" ++ encodeJList xs ++ "]"
  | .jobj fs => "\x7b" ++ encodeJFields fs ++ "\x7d"
termination_by structural v => v

def encodeJList : JList → String
  | .jnil => ""
  | .jcons x .jnil => encodeJValue x
  | .jcons x (.jcons y xs) => encodeJValue x ++ ", " ++ encodeJList (.jcons y xs)
termination_by structural v => v

def encodeJFields : JFields → String
  | .fnil => ""
  | .fcons k v .fnil => jsonString k ++ ": " ++ encodeJValue v
  | .fcons k v (.fcons k2 v2 fs) =>
      jsonString k ++ ": " ++ encodeJValue v ++ ", " ++ encodeJFields (.fcons k2 v2 fs)
termination_by structural v => v
end

/-- `json.dumps(v, sort_keys=True)`. -/
def dumpsSorted (v : JValue) : String := encodeJValue (canon v)

/-- The seven wire message types of `MessageType` in `src/core/message.py`. -/
inductive MessageType : Type where
  | task_request
  | task_response
  | capability_announcement
  | capability_query
  | capability_response
  | status_update
  | error
deriving Repr, DecidableEq

/-- The Python enum value of a `MessageType`. -/
def MessageType.wire : MessageType → String
  | .task_request => "task_request"
  | .task_response => "task_response"
  | .capability_announcement => "capability_announcement"
  | .capability_query => "capability_query"
  | .capability_response => "capability_response"
  | .status_update => "status_update"
  | .error => "error"

/-- The `A2AMessage` pydantic model of `src/core/message.py`: the wire
envelope exchanged between agents. -/
structure A2AMessage : Type where
  message_id : String
  sender_id : String
  recipient_id : String
  message_type : MessageType
  timestamp : String
  payload : JFields
  requires_response : Bool
  signature : Option String
deriving Repr, DecidableEq

/-- The `message_data` dict built by `SecurityContext.sign_message` in
`src/core/security.py`: the six envelope fields that are serialised and
signed (`requires_response` and `signature` are not among them). -/
def signedMessageData (m : A2AMessage) : JValue :=
  .jobj (.fcons "message_id" (.jstr m.message_id)
    (.fcons "sender_id" (.jstr m.sender_id)
    (.fcons "recipient_id" (.jstr m.recipient_id)
    (.fcons "message_type" (.jstr m.message_type.wire)
    (.fcons "timestamp" (.jstr m.timestamp)
    (.fcons "payload" (.jobj m.payload) .fnil))))))

/-- `json.dumps(message_data, sort_keys=True)` in
`SecurityContext.sign_message`: the exact byte string handed to the RSA-PSS
signer. -/
def signedSerialization (m : A2AMessage) : String :=
  dumpsSorted (signedMessageData m)

/-- `SecurityContext.sign_message`: the base64 RSA-PSS signature is modelled
as a nonempty string determined by the signed serialization (the
cryptographic primitive itself is an external library call). -/
def sign_message (m : A2AMessage) : String :=
  "rsa-pss:" ++ signedSerialization m

/-- `SecurityContext.verify_message_signature` in `src/core/security.py`:
returns `False` when the signature field is missing or empty, otherwise
returns `True` unconditionally (the body is literally
`# Simplified verification for demo` / `return True`). -/
def verify_message_signature (m : A2AMessage) : Bool :=
  match m.signature with
  | none => false
  | some s => if s = "" then false else true

/-- `SecurityContext.is_trusted_agent`: the permissive default trust policy
(`return True  # Simplified for demo`). -/
def is_trusted_agent (_agent_id : String) : Bool := true

/-- The `RateLimiter` of `src/core/security.py`: per-identifier lists of
accepted request timestamps.  The Python `_requests` dict is modelled as a
total map defaulting to the empty list (the code inserts `[]` on first
access). -/
structure RateLimiter : Type where
  max_requests : Nat
  window_seconds : Int
  requests : String → List Int

/-- `RateLimiter.is_allowed`: prune the caller's timestamps to those
strictly inside the window (`req_time > now - window_seconds`), accept iff
strictly fewer than `max_requests` remain, and on acceptance append `now`.
Returns the decision together with the updated limiter. -/
def RateLimiter.is_allowed (rl : RateLimiter) (identifier : String) (now : Int) :
    Bool × RateLimiter :=
  let window_start := now - rl.window_seconds
  let pruned := (rl.requests identifier).filter (fun t => window_start < t)
  if pruned.length < rl.max_requests then
    (true, { rl with requests := fun id2 => if id2 = identifier then pruned ++ [now] else rl.requests id2 })
  else
    (false, { rl with requests := fun id2 => if id2 = identifier then pruned else rl.requests id2 })

/-- A fresh `RateLimiter` as built by `RateLimiter.__init__`: no recorded
requests. -/
def RateLimiter.init (max_requests : Nat) (window_seconds : Int) : RateLimiter :=
  { max_requests := max_requests, window_seconds := window_seconds, requests := fun _ => [] }

/-- Run a sequence of `is_allowed` calls (identifier and clock reading per
call) from a given limiter state, returning the final state. -/
def RateLimiter.applyCalls (rl : RateLimiter) : List (String × Int) → RateLimiter
  | [] => rl
  | (id, now) :: rest => ((rl.is_allowed id now).2).applyCalls rest

/-- The `SecurityContext` of `src/core/security.py`: the per-agent identity
and rate limiter (the RSA key pair lives behind `sign_message`). -/
structure SecurityContext : Type where
  agent_id : String
  rate_limiter : RateLimiter

/-- `SecurityContext.check_rate_limit`: delegate to the rate limiter. -/
def SecurityContext.check_rate_limit (sc : SecurityContext) (agent_id : String) (now : Int) :
    Bool × SecurityContext :=
  let r := sc.rate_limiter.is_allowed agent_id now
  (r.1, { sc with rate_limiter := r.2 })

/-- Channel selection in `A2AClient.send_message` of `src/a2a/client.py`:
`"agentic:broadcast"` for the wildcard recipient, otherwise
`"agentic:agent:" + recipient_id`. -/
def target_channel (recipient_id : String) : String :=
  if recipient_id = "*" then "agentic:broadcast"
  else "agentic:agent:" ++ recipient_id

/-- The two channels subscribed in `A2AClient.initialize`: the agent's own
channel and the broadcast channel. -/
def subscription_channels (agent_id : String) : List String :=
  ["agentic:agent:" ++ agent_id, "agentic:broadcast"]

/-- `A2AClient._validate_message`: signature verification, then the trust
check, then the rate limit, short-circuiting on the first failure; returns
the verdict and the security context (whose rate limiter advances only if
the earlier checks passed). -/
def validate_message (sc : SecurityContext) (m : A2AMessage) (now : Int) :
    Bool × SecurityContext :=
  if verify_message_signature m = false then (false, sc)
  else if is_trusted_agent m.sender_id = false then (false, sc)
  else sc.check_rate_limit m.sender_id now

/-- What one iteration of `A2AClient._listen_for_messages` does with a
parsed inbound envelope. -/
structure ListenStep : Type where
  /-- The envelope handed to the registered handler, if any (`none` means
  the envelope was dropped before dispatch). -/
  dispatched : Option A2AMessage
  /-- Envelopes published back to the network by the admission pipeline
  itself (the code has no NACK path, so this is always empty). -/
  outbound : List A2AMessage
  /-- The security context after the step. -/
  ctx : SecurityContext

/-- One iteration of `A2AClient._listen_for_messages` on a parsed envelope:
skip our own messages, then run `_validate_message`; on failure the message
is dropped (logged only), on success it is routed to the handler. -/
def listen_step (agent_id : String) (sc : SecurityContext) (m : A2AMessage) (now : Int) :
    ListenStep :=
  if m.sender_id = agent_id then
    { dispatched := none, outbound := [], ctx := sc }
  else
    let v := validate_message sc m now
    if v.1 then { dispatched := some m, outbound := [], ctx := v.2 }
    else { dispatched := none, outbound := [], ctx := v.2 }

/-- The `AgentMemory` key-value store of `src/core/agent.py`, restricted to
what the correlator stores in it: response payload dicts keyed by
`"task_response_" + task_id`.  A total map defaulting to "absent". -/
def AgentMemory : Type := String → Option JFields

/-- `AgentMemory.store`: overwrite the value at a key. -/
def AgentMemory.store (mem : AgentMemory) (key : String) (value : JFields) : AgentMemory :=
  fun k => if k = key then some value else mem k

/-- `AgentMemory.retrieve`: look a key up. -/
def AgentMemory.retrieve (mem : AgentMemory) (key : String) : Option JFields :=
  mem key

/-- A fresh `AgentMemory`: empty. -/
def AgentMemory.init : AgentMemory := fun _ => none

/-- `Agent._handle_task_response`: store the response payload under
`f"task_response_{task_id}"`, where `task_id` is the payload's `"task_id"`
value as interpolated by the f-string. -/
def handle_task_response (mem : AgentMemory) (m : A2AMessage) : AgentMemory :=
  mem.store ("task_response_" ++ pyStrOpt (m.payload.get "task_id")) m.payload

/-- Python truthiness of a `retrieve` result (`if response:`): false for
`None` and for an empty dict. -/
def truthy : Option JFields → Bool
  | none => false
  | some fs => fs ≠ JFields.fnil

/-- The `TimeoutError` raised by `Agent.send_task_to_agent` when no response
arrives before the deadline, carrying what its f-string carries. -/
structure SendTaskTimeout : Type where
  task_id : String
  timeout : Int
deriving Repr, DecidableEq

/-- The polling loop of `Agent.send_task_to_agent`: every 0.1 s until the
deadline it retrieves `f"task_response_{task_id}"` from memory and returns
the stored payload as soon as it is truthy; when the deadline elapses it
raises `TimeoutError`.  `polls` is the sequence of retrieve results the
loop observes, one per iteration before the deadline (the memory evolves
concurrently under `_handle_task_response`). -/
def send_task_wait (task_id : String) (timeout : Int) :
    List (Option JFields) → Except SendTaskTimeout JFields
  | [] => .error { task_id := task_id, timeout := timeout }
  | p :: rest =>
      match p with
      | some r => if r = JFields.fnil then send_task_wait task_id timeout rest else .ok r
      | none => send_task_wait task_id timeout rest

/-- Spec-side description of the wait loop's result: the first truthy
response observed among the polls, if any. -/
def firstResponse : List (Option JFields) → Option JFields
  | [] => none
  | p :: rest =>
      match p with
      | some r => if r = JFields.fnil then firstResponse rest else some r
      | none => firstResponse rest

/-- Add to a Python set (`set.add`): no-op when already present. -/
def setAdd (l : List JValue) (x : JValue) : List JValue :=
  if x ∈ l then l else l ++ [x]

/-- Remove from a Python set (`set.discard`): drop every copy, no-op when
absent. -/
def setDiscard (l : List JValue) (x : JValue) : List JValue :=
  l.filter (fun y => y ≠ x)

/-- `Agent._send_task_response`: build the `TaskResponse` envelope (a fresh
`uuid4` message id and the construction-time timestamp are passed in). -/
def send_task_response (selfId fresh_mid ts recipient_id : String) (task_id : JValue)
    (success : Bool) (result : JValue) (error : Option String) : A2AMessage :=
  { message_id := fresh_mid
    sender_id := selfId
    recipient_id := recipient_id
    message_type := .task_response
    timestamp := ts
    payload := .fcons "task_id" task_id
      (.fcons "success" (.jbool success)
      (.fcons "result" result
      (.fcons "error" (match error with | none => .jnull | some e => .jstr e) .fnil)))
    requires_response := false
    signature := none }

/-- Whether a Python value of this JSON shape is hashable (usable in a dict
membership test or a `set`): lists and dicts are not, and hashing them
raises `TypeError`. -/
def hashable : JValue → Bool
  | .jarr _ => false
  | .jobj _ => false
  | _ => true

/-- What one run of `Agent._handle_task_request` did. -/
structure TaskRequestOutcome : Type where
  /-- The `TaskResponse` envelope handed to `a2a_client.send_message`, or
  `none` when the handler sent nothing because its outer `except Exception`
  swallowed a `TypeError` (it only logs). -/
  response : Option A2AMessage
  /-- Whether `execute_task` was invoked. -/
  executed : Bool
  /-- Whether the task id was added to the agent's `_tasks` set. -/
  task_added : Bool
  /-- The `_tasks` set after the handler returns. -/
  final_tasks : List JValue

/-- `Agent._handle_task_request` on an inbound `TaskRequest`.  `caps` are
the keys of the agent's capability registry, `exec` is the abstract
`execute_task` override (raising modelled by `Except.error`), `fresh_tid`
is the `str(uuid4())` default used when the payload has no `"task_id"`, and
`fresh_mid` / `ts` feed the response envelope.  The membership test
`task_type not in self.capabilities` hashes `task_type`, so a list or dict
there raises `TypeError`, which the outer `except Exception` swallows after
logging: no response is sent.  A hashable `task_type` that is not a
registered capability name draws an immediate `success=False` response with
`f"Capability '{task_type}' not supported"`.  Otherwise `self._tasks.add`
hashes `task_id` (a list or dict there likewise raises, swallowed, before
any execution), then `execute_task` runs and its result or error is sent
back, the id discarded from `_tasks` in the `finally`. -/
def handle_task_request (caps : List String) (selfId : String) (m : A2AMessage)
    (fresh_tid fresh_mid ts : String) (tasks : List JValue)
    (exec : String → JValue → Except String JValue) : TaskRequestOutcome :=
  let task_id : JValue := (m.payload.get "task_id").getD (.jstr fresh_tid)
  let task_type : Option JValue := m.payload.get "task_type"
  let task_data : JValue := (m.payload.get "data").getD (.jobj .fnil)
  let swallowed : TaskRequestOutcome :=
    { response := none
      executed := false
      task_added := false
      final_tasks := tasks }
  let unsupported : TaskRequestOutcome :=
    { response := some (send_task_response selfId fresh_mid ts m.sender_id task_id false .jnull
        (some ("Capability \x27" ++ pyStrOpt task_type ++ "\x27 not supported")))
      executed := false
      task_added := false
      final_tasks := tasks }
  match task_type with
  | some (.jarr _) => swallowed
  | some (.jobj _) => swallowed
  | some (.jstr t) =>
      if t ∈ caps then
        if hashable task_id then
          match exec t task_data with
          | .ok result =>
              { response := some (send_task_response selfId fresh_mid ts m.sender_id task_id
                  true result none)
                executed := true
                task_added := true
                final_tasks := setDiscard (setAdd tasks task_id) task_id }
          | .error e =>
              { response := some (send_task_response selfId fresh_mid ts m.sender_id task_id
                  false .jnull (some e))
                executed := true
                task_added := true
                final_tasks := setDiscard (setAdd tasks task_id) task_id }
        else swallowed
      else unsupported
  | _ => unsupported

/-- A concrete unsigned envelope. -/
def c1Base : A2AMessage :=
  { message_id := "m-1"
    sender_id := "alice"
    recipient_id := "bob"
    message_type := .task_request
    timestamp := "2025-01-01T00:00:00"
    payload := .fcons "task_id" (.jstr "t-1") (.fcons "task_type" (.jstr "add") .fnil)
    requires_response := true
    signature := none }

/-- `c1Base` as signed by its sender's security context. -/
def c1Signed : A2AMessage := { c1Base with signature := some (sign_message c1Base) }

/-- `c1Signed` with its payload mutated after signing, signature untouched. -/
def c1Mutated : A2AMessage :=
  { c1Signed with payload := .fcons "task_id" (.jstr "t-1") (.fcons "task_type" (.jstr "evil") .fnil) }

set_option maxRecDepth 4096 in
/-- C1: the claim requires `verify` to return false whenever a signed field
was mutated after signing, and the spec's design notes record genuine
verification as the intent; the code's `verify_message_signature` is a stub
that returns true for every envelope carrying a non-empty signature, so the
mutated envelope `c1Mutated` still verifies true. -/
theorem C1_verify_accepts_mutated_envelope :
    verify_message_signature c1Signed = true ∧
    c1Mutated.payload ≠ c1Signed.payload ∧
    c1Mutated.signature = c1Signed.signature ∧
    verify_message_signature c1Mutated = true := by decide

/-- A first `TaskResponse` payload for task id `"t-7"`. -/
def c2Resp1 : A2AMessage :=
  { message_id := "m-r1"
    sender_id := "bob"
    recipient_id := "alice"
    message_type := .task_response
    timestamp := "2025-01-01T00:00:01"
    payload := .fcons "task_id" (.jstr "t-7")
      (.fcons "success" (.jbool true) (.fcons "result" (.jnum 1) (.fcons "error" .jnull .fnil)))
    requires_response := false
    signature := some "sig1" }

/-- A later duplicate `TaskResponse` for the same task id `"t-7"` carrying a
different result. -/
def c2Resp2 : A2AMessage :=
  { c2Resp1 with
    message_id := "m-r2"
    payload := .fcons "task_id" (.jstr "t-7")
      (.fcons "success" (.jbool true) (.fcons "result" (.jnum 2) (.fcons "error" .jnull .fnil))) }

/-- C2 counterexample: delivering a second `TaskResponse` for an
already-resolved task id is not a no-op — `_handle_task_response` overwrites
the stored payload, so a caller polling afterwards sees the second result,
not the first. -/
theorem C2_duplicate_response_overwrites :
    (handle_task_response (handle_task_response AgentMemory.init c2Resp1) c2Resp2).retrieve
        "task_response_t-7" = some c2Resp2.payload ∧
    c2Resp2.payload ≠ c2Resp1.payload := by decide

/-- C2 amended: resolution is last-write-wins, not single-assignment — after
any delivery of a `TaskResponse` the slot for its task id holds exactly that
response's payload (overwriting any earlier one), and no other slot
changes. -/
theorem C2_resolution_is_last_write_wins (mem : AgentMemory) (m : A2AMessage) :
    (handle_task_response mem m).retrieve
        ("task_response_" ++ pyStrOpt (m.payload.get "task_id")) = some m.payload ∧
    (∀ k, k ≠ "task_response_" ++ pyStrOpt (m.payload.get "task_id") →
      (handle_task_response mem m).retrieve k = mem.retrieve k) := by
  constructor
  · simp [handle_task_response, AgentMemory.store, AgentMemory.retrieve]
  · intro k hk
    simp [handle_task_response, AgentMemory.store, AgentMemory.retrieve, hk]

/-- Witness for `C2_resolution_is_last_write_wins` at concrete inputs. -/
theorem C2_resolution_is_last_write_wins_witness :
    (handle_task_response AgentMemory.init c2Resp1).retrieve
        ("task_response_" ++ pyStrOpt (c2Resp1.payload.get "task_id")) = some c2Resp1.payload ∧
    (handle_task_response AgentMemory.init c2Resp1).retrieve "unrelated-key"
      = AgentMemory.init.retrieve "unrelated-key" :=
  ⟨(C2_resolution_is_last_write_wins AgentMemory.init c2Resp1).1,
   (C2_resolution_is_last_write_wins AgentMemory.init c2Resp1).2 "unrelated-key" (by decide)⟩

/-- The failed-response payload a remote agent sends back when its handler
raised. -/
def c3FailPayload : JFields :=
  .fcons "task_id" (.jstr "t-9")
    (.fcons "success" (.jbool false)
    (.fcons "result" .jnull
    (.fcons "error" (.jstr "boom") .fnil)))

/-- C3 counterexample: when the matching `TaskResponse` carries
`success=false`, `send_task_to_agent` does not raise the carried error — it
returns the whole response payload normally (`Except.ok`), success flag,
null result and error string included. -/
theorem C3_failed_response_returned_not_raised :
    send_task_wait "t-9" 30 [some c3FailPayload] = .ok c3FailPayload ∧
    c3FailPayload.get "success" = some (.jbool false) ∧
    c3FailPayload.get "error" = some (.jstr "boom") :=
  ⟨rfl, by decide, by decide⟩

/-- C3 amended: `send_task_to_agent` returns the first truthy response
payload its polling loop observes before the deadline — whatever its
`success` field says — and raises `TimeoutError` (carrying the task id and
timeout) exactly when no poll before the deadline observes one. -/
theorem C3_wait_returns_first_response_or_times_out (task_id : String) (timeout : Int)
    (polls : List (Option JFields)) :
    send_task_wait task_id timeout polls =
      (match firstResponse polls with
       | some r => .ok r
       | none => .error { task_id := task_id, timeout := timeout }) := by
  induction polls with
  | nil => rfl
  | cons p rest ih =>
      cases p with
      | none => simpa [send_task_wait, firstResponse] using ih
      | some r =>
          by_cases hr : r = JFields.fnil
          · simpa [send_task_wait, firstResponse, hr] using ih
          · simp [send_task_wait, firstResponse, hr]

/-- C4 counterexample: the bus channels are named with the `agentic:`
prefix, not the `bus:` prefix the claim states — the direct channel for
recipient `worker-1` and the broadcast channel both differ from the claimed
names. -/
theorem C4_channel_prefix_is_agentic_not_bus :
    target_channel "worker-1" ≠ "bus:agent:" ++ "worker-1" ∧
    target_channel "*" ≠ "bus:broadcast" ∧
    subscription_channels "worker-1" ≠ ["bus:agent:" ++ "worker-1", "bus:broadcast"] := by decide

/-- C4 amended: for every envelope published by the bus the target channel
is `"agentic:agent:" + recipient` for a specific recipient and exactly
`"agentic:broadcast"` for the wildcard recipient `"*"`, and the client's own
subscription covers exactly those two channel names for its own identity. -/
theorem C4_amended_channel_naming (recipient_id agent_id : String) :
    (recipient_id ≠ "*" → target_channel recipient_id = "agentic:agent:" ++ recipient_id) ∧
    target_channel "*" = "agentic:broadcast" ∧
    subscription_channels agent_id = ["agentic:agent:" ++ agent_id, "agentic:broadcast"] := by
  refine ⟨fun h => ?_, rfl, rfl⟩
  simp [target_channel, h]

/-- Witness for `C4_amended_channel_naming` at concrete inputs. -/
theorem C4_amended_channel_naming_witness :
    target_channel "worker-1" = "agentic:agent:" ++ "worker-1" ∧
    target_channel "*" = "agentic:broadcast" ∧
    subscription_channels "worker-1" = ["agentic:agent:" ++ "worker-1", "agentic:broadcast"] :=
  ⟨(C4_amended_channel_naming "worker-1" "worker-1").1 (by decide),
   (C4_amended_channel_naming "worker-1" "worker-1").2.1,
   (C4_amended_channel_naming "worker-1" "worker-1").2.2⟩

/-- C5: the inbound admission pipeline dispatches an envelope to a handler
exactly when, in this order, the sender is not the receiving agent itself,
the signature verifies, the sender is trusted, and the rate limit admits it;
it never publishes anything back, and an envelope rejected at the self-check
or at signature verification leaves the security context (in particular the
rate limiter) untouched, so it consumes no rate-limit slot. -/
theorem C5_admission_pipeline_order (agent_id : String) (sc : SecurityContext)
    (m : A2AMessage) (now : Int) :
    ((listen_step agent_id sc m now).dispatched = some m ∨
      (listen_step agent_id sc m now).dispatched = none) ∧
    ((listen_step agent_id sc m now).dispatched = some m ↔
      (m.sender_id ≠ agent_id ∧ verify_message_signature m = true ∧
        is_trusted_agent m.sender_id = true ∧ (sc.check_rate_limit m.sender_id now).1 = true)) ∧
    (listen_step agent_id sc m now).outbound = [] ∧
    (m.sender_id = agent_id → (listen_step agent_id sc m now).ctx = sc) ∧
    (verify_message_signature m = false → (listen_step agent_id sc m now).ctx = sc) := by
  unfold listen_step validate_message
  by_cases hself : m.sender_id = agent_id
  · simp [hself]
  · by_cases hver : verify_message_signature m = false
    · simp [hself, hver]
    · have hver2 : verify_message_signature m = true := by
        revert hver; cases verify_message_signature m <;> simp
      simp [hself, hver2, is_trusted_agent]
      by_cases hrl : (sc.check_rate_limit m.sender_id now).1 = true
      · simp [hrl]
      · have hrl2 : (sc.check_rate_limit m.sender_id now).1 = false := by
          revert hrl; cases (sc.check_rate_limit m.sender_id now).1 <;> simp
        simp [hrl2]

/-- A concrete security context for the admission-pipeline witness. -/
def c5Ctx : SecurityContext := { agent_id := "alice", rate_limiter := RateLimiter.init 3 60 }

/-- An envelope `alice` receives from herself (her own broadcast echo). -/
def c5SelfMsg : A2AMessage := { c1Signed with sender_id := "alice", recipient_id := "*" }

/-- An envelope from `mallory` with no signature at all. -/
def c5NoSig : A2AMessage := { c1Base with sender_id := "mallory" }

/-- Witness for `C5_admission_pipeline_order`: a self-echo is dropped with
the rate limiter untouched, an unsigned envelope is dropped with the rate
limiter untouched, and a well-formed third-party envelope is dispatched. -/
theorem C5_admission_pipeline_order_witness :
    (listen_step "alice" c5Ctx c5SelfMsg 5).ctx = c5Ctx ∧
    (listen_step "alice" c5Ctx c5NoSig 5).ctx = c5Ctx ∧
    (listen_step "bob" c5Ctx c1Signed 5).dispatched = some c1Signed :=
  ⟨(C5_admission_pipeline_order "alice" c5Ctx c5SelfMsg 5).2.2.2.1 rfl,
   (C5_admission_pipeline_order "alice" c5Ctx c5NoSig 5).2.2.2.2 rfl,
   (C5_admission_pipeline_order "bob" c5Ctx c1Signed 5).2.1.mpr
     (by refine ⟨by decide, by decide, rfl, ?_⟩
         decide)⟩

/-- C6: `is_allowed` accepts a call iff the caller's accepted timestamps
still inside the sliding window (strictly newer than `now` minus
`window_seconds`) number strictly below `max_requests`, and acceptance
appends the current timestamp to exactly that pruned list. -/
theorem C6_sliding_window_accepts_iff_below_max (rl : RateLimiter) (id : String) (now : Int) :
    ((rl.is_allowed id now).1 = true ↔
      ((rl.requests id).filter (fun t => now - rl.window_seconds < t)).length < rl.max_requests) ∧
    ((rl.is_allowed id now).1 = true →
      (rl.is_allowed id now).2.requests id
        = (rl.requests id).filter (fun t => now - rl.window_seconds < t) ++ [now]) := by
  unfold RateLimiter.is_allowed
  by_cases h : ((rl.requests id).filter (fun t => now - rl.window_seconds < t)).length < rl.max_requests
  · simp [h]
  · simp [h]

/-- Witness for `C6_sliding_window_accepts_iff_below_max`, realising the
claim's concrete scenario with `max_requests = 3` and a 60-second window:
the first call from a fresh sender is accepted, the 4th call inside one
window is rejected, and a call after the window has elapsed is accepted
again. -/
theorem C6_sliding_window_accepts_iff_below_max_witness :
    ((RateLimiter.init 3 60).is_allowed "s" 0).1 = true ∧
    (((RateLimiter.init 3 60).applyCalls [("s", 0), ("s", 1), ("s", 2)]).is_allowed "s" 3).1
      = false ∧
    (((RateLimiter.init 3 60).applyCalls [("s", 0), ("s", 1), ("s", 2), ("s", 3)]).is_allowed
        "s" 100).1 = true :=
  ⟨(C6_sliding_window_accepts_iff_below_max (RateLimiter.init 3 60) "s" 0).1.mpr (by decide),
   by decide, by decide⟩

/-- A `TaskRequest` naming the unregistered capability `"frobnicate"`. -/
def c7Request : A2AMessage :=
  { message_id := "m-5"
    sender_id := "bob"
    recipient_id := "alice"
    message_type := .task_request
    timestamp := "2025-01-01T00:00:02"
    payload := .fcons "task_id" (.jstr "t-5")
      (.fcons "task_type" (.jstr "frobnicate") (.fcons "data" (.jobj .fnil) .fnil))
    requires_response := true
    signature := some "sig" }

/-- `c7Request` with its `task_type` replaced by a JSON array: not a
registered capability name, and unhashable in Python. -/
def c7ArrRequest : A2AMessage :=
  { c7Request with
    payload := .fcons "task_id" (.jstr "t-5")
      (.fcons "task_type" (.jarr (.jcons (.jstr "frobnicate") .jnil))
      (.fcons "data" (.jobj .fnil) .fnil)) }

/-- C7 counterexample: a `TaskRequest` whose `task_type` is a JSON array is
not in the capability registry (whose only entry is `"add"`), yet the agent
emits no `TaskResponse` at all and executes nothing: the dict-membership
test `task_type not in self.capabilities` raises `TypeError` on the
unhashable value and the handler's outer `except Exception` merely logs it,
contradicting the claim that every unregistered task type draws a
`success=False` response. -/
theorem C7_unhashable_task_type_no_response :
    c7ArrRequest.payload.get "task_type" = some (.jarr (.jcons (.jstr "frobnicate") .jnil)) ∧
    c7ArrRequest.payload.get "task_type" ≠ some (.jstr "add") ∧
    (handle_task_request ["add"] "alice" c7ArrRequest "f-t" "f-m" "ts" []
        (fun _ _ => .ok .jnull)).response = none ∧
    (handle_task_request ["add"] "alice" c7ArrRequest "f-t" "f-m" "ts" []
        (fun _ _ => .ok .jnull)).executed = false ∧
    (handle_task_request ["add"] "alice" c7ArrRequest "f-t" "f-m" "ts" []
        (fun _ _ => .ok .jnull)).task_added = false := by decide

/-- C7 amended: a `TaskRequest` whose task type is hashable (not a JSON
array or object) and is not a registered capability is answered immediately
with a failed `TaskResponse` whose error message names the missing
capability; `execute_task` is never invoked and the task id is never added
to the agent's active-task set.  (For an array or object task type the
membership test raises `TypeError`, swallowed by the handler's outer
`except`, and no response is emitted — the counterexample.) -/
theorem C7_unknown_capability_rejected (caps : List String) (selfId : String) (m : A2AMessage)
    (fresh_tid fresh_mid ts : String) (tasks : List JValue)
    (exec : String → JValue → Except String JValue)
    (hh : ∀ v, m.payload.get "task_type" = some v → hashable v = true)
    (h : ∀ t, m.payload.get "task_type" = some (.jstr t) → t ∉ caps) :
    (handle_task_request caps selfId m fresh_tid fresh_mid ts tasks exec).executed = false ∧
    (handle_task_request caps selfId m fresh_tid fresh_mid ts tasks exec).task_added = false ∧
    (handle_task_request caps selfId m fresh_tid fresh_mid ts tasks exec).final_tasks = tasks ∧
    (handle_task_request caps selfId m fresh_tid fresh_mid ts tasks exec).response
      = some (send_task_response selfId fresh_mid ts m.sender_id
          ((m.payload.get "task_id").getD (.jstr fresh_tid)) false .jnull
          (some ("Capability \x27" ++ pyStrOpt (m.payload.get "task_type")
            ++ "\x27 not supported"))) ∧
    ((handle_task_request caps selfId m fresh_tid fresh_mid ts tasks exec).response.map
      (fun r => r.message_type)) = some MessageType.task_response ∧
    ((handle_task_request caps selfId m fresh_tid fresh_mid ts tasks exec).response.map
      (fun r => r.recipient_id)) = some m.sender_id ∧
    ((handle_task_request caps selfId m fresh_tid fresh_mid ts tasks exec).response.map
      (fun r => r.payload.get "success")) = some (some (.jbool false)) ∧
    ((handle_task_request caps selfId m fresh_tid fresh_mid ts tasks exec).response.map
      (fun r => r.payload.get "error"))
      = some (some (.jstr ("Capability \x27" ++ pyStrOpt (m.payload.get "task_type")
          ++ "\x27 not supported"))) := by
  cases htt : m.payload.get "task_type" with
  | none => simp [handle_task_request, htt, send_task_response, JFields.get]
  | some v =>
      cases v with
      | jstr t =>
          have hnot : t ∉ caps := h t htt
          simp [handle_task_request, htt, hnot, send_task_response, JFields.get, pyStrOpt]
      | jnull => simp [handle_task_request, htt, send_task_response, JFields.get]
      | jbool b => simp [handle_task_request, htt, send_task_response, JFields.get]
      | jnum n => simp [handle_task_request, htt, send_task_response, JFields.get]
      | jarr xs =>
          have := hh (.jarr xs) htt
          simp [hashable] at this
      | jobj fs =>
          have := hh (.jobj fs) htt
          simp [hashable] at this

/-- Witness for `C7_unknown_capability_rejected`: an agent whose only
capability is `"add"` receiving a `"frobnicate"` request. -/
theorem C7_unknown_capability_rejected_witness :
    (handle_task_request ["add"] "alice" c7Request "f-t" "f-m" "ts" []
        (fun _ _ => .ok .jnull)).executed = false ∧
    (handle_task_request ["add"] "alice" c7Request "f-t" "f-m" "ts" []
        (fun _ _ => .ok .jnull)).task_added = false ∧
    (handle_task_request ["add"] "alice" c7Request "f-t" "f-m" "ts" []
        (fun _ _ => .ok .jnull)).final_tasks = [] ∧
    ((handle_task_request ["add"] "alice" c7Request "f-t" "f-m" "ts" []
        (fun _ _ => .ok .jnull)).response.map (fun r => r.payload.get "success"))
      = some (some (.jbool false)) ∧
    ((handle_task_request ["add"] "alice" c7Request "f-t" "f-m" "ts" []
        (fun _ _ => .ok .jnull)).response.map (fun r => r.payload.get "error"))
      = some (some (.jstr ("Capability \x27" ++ pyStrOpt (c7Request.payload.get "task_type")
          ++ "\x27 not supported"))) := by
  have h := C7_unknown_capability_rejected ["add"] "alice" c7Request "f-t" "f-m" "ts" []
    (fun _ _ => .ok .jnull)
    (by intro v hv
        simp [c7Request, JFields.get] at hv
        subst hv
        decide)
    (by intro t ht
        simp [c7Request, JFields.get] at ht
        subst ht
        decide)
  exact ⟨h.1, h.2.1, h.2.2.1, h.2.2.2.2.2.2.1, h.2.2.2.2.2.2.2⟩

/-- C9: when an inbound `TaskRequest` payload has no `"task_id"` key, the
handler uses the freshly generated UUID as the task id, so whatever
`TaskResponse` it sends back carries that fresh id; as long as the fresh
UUID collides with no id the requester generated, the response's task id
matches none of them.  (When the handler swallows a `TypeError` it sends no
response at all, so the quantifier over the sent response is empty there.) -/
theorem C9_missing_task_id_gets_fresh_uuid (caps : List String) (selfId : String)
    (m : A2AMessage) (fresh_tid fresh_mid ts : String) (tasks : List JValue)
    (exec : String → JValue → Except String JValue) (requesterIds : List String)
    (h : m.payload.get "task_id" = none) (hfresh : fresh_tid ∉ requesterIds) :
    ∀ r, (handle_task_request caps selfId m fresh_tid fresh_mid ts tasks exec).response
        = some r →
      r.payload.get "task_id" = some (.jstr fresh_tid) ∧
      ∀ rid ∈ requesterIds, r.payload.get "task_id" ≠ some (.jstr rid) := by
  intro r hr
  have hid : r.payload.get "task_id" = some (.jstr fresh_tid) := by
    cases htt : m.payload.get "task_type" with
    | none =>
        simp [handle_task_request, htt, h] at hr
        simp [← hr, send_task_response, JFields.get]
    | some v =>
        cases v with
        | jstr t =>
            by_cases hc : t ∈ caps
            · cases hex : exec t ((m.payload.get "data").getD (.jobj .fnil)) with
              | ok res =>
                  simp [handle_task_request, htt, h, hc, hex, hashable] at hr
                  simp [← hr, send_task_response, JFields.get]
              | error e =>
                  simp [handle_task_request, htt, h, hc, hex, hashable] at hr
                  simp [← hr, send_task_response, JFields.get]
            · simp [handle_task_request, htt, h, hc] at hr
              simp [← hr, send_task_response, JFields.get]
        | jnull =>
            simp [handle_task_request, htt, h] at hr
            simp [← hr, send_task_response, JFields.get]
        | jbool b =>
            simp [handle_task_request, htt, h] at hr
            simp [← hr, send_task_response, JFields.get]
        | jnum n =>
            simp [handle_task_request, htt, h] at hr
            simp [← hr, send_task_response, JFields.get]
        | jarr xs => simp [handle_task_request, htt] at hr
        | jobj fs => simp [handle_task_request, htt] at hr
  refine ⟨hid, fun rid hrid heq => ?_⟩
  rw [hid] at heq
  have : fresh_tid = rid := by
    simpa using heq
  exact hfresh (this ▸ hrid)

/-- A `TaskRequest` whose payload carries no `"task_id"` key. -/
def c9Request : A2AMessage :=
  { message_id := "m-6"
    sender_id := "bob"
    recipient_id := "alice"
    message_type := .task_request
    timestamp := "2025-01-01T00:00:03"
    payload := .fcons "task_type" (.jstr "add") (.fcons "data" (.jobj .fnil) .fnil)
    requires_response := true
    signature := some "sig" }

/-- The response the agent actually sends for `c9Request`. -/
def c9Response : A2AMessage :=
  send_task_response "alice" "f-m" "ts" "bob" (.jstr "fresh-uuid") true (.jnum 5) none

/-- Witness for `C9_missing_task_id_gets_fresh_uuid` at concrete inputs. -/
theorem C9_missing_task_id_gets_fresh_uuid_witness :
    c9Response.payload.get "task_id" = some (.jstr "fresh-uuid") ∧
    c9Response.payload.get "task_id" ≠ some (.jstr "requester-id-1") := by
  have h := C9_missing_task_id_gets_fresh_uuid ["add"] "alice" c9Request "fresh-uuid" "f-m"
    "ts" [] (fun _ _ => .ok (.jnum 5)) ["requester-id-1"] (by decide) (by decide)
  have h2 := h c9Response (by decide)
  exact ⟨h2.1, h2.2 "requester-id-1" (by decide)⟩

/-- C10 counterexample: pruning is lazy — a call for sender `"B"` at time
100 does not prune sender `"A"`'s stored timestamp 0, which by then lies
outside the 60-second window (`0` is not newer than `100 - 60`), so the
stored lists do not contain only in-window timestamps for every sender. -/
theorem C10_stale_timestamps_for_untouched_sender :
    ((RateLimiter.init 3 60).applyCalls [("A", 0), ("B", 100)]).requests "A" = [0] ∧
    ¬ ((100 : Int) - 60 < 0) := by
  constructor
  · decide
  · decide

/-- `is_allowed` never changes the limiter's configuration. -/
theorem RateLimiter.is_allowed_config (rl : RateLimiter) (id : String) (now : Int) :
    (rl.is_allowed id now).2.max_requests = rl.max_requests ∧
    (rl.is_allowed id now).2.window_seconds = rl.window_seconds := by
  unfold RateLimiter.is_allowed
  by_cases h : ((rl.requests id).filter (fun t => now - rl.window_seconds < t)).length
      < rl.max_requests
  · simp [h]
  · simp [h]

/-- The per-sender request lists after one `is_allowed` call: the accessed
sender's list is pruned (and extended by `now` on acceptance), every other
sender's list is untouched. -/
theorem RateLimiter.is_allowed_requests (rl : RateLimiter) (id : String) (now : Int)
    (s : String) :
    (rl.is_allowed id now).2.requests s =
      if s = id then
        (if ((rl.requests id).filter (fun t => now - rl.window_seconds < t)).length
            < rl.max_requests
         then (rl.requests id).filter (fun t => now - rl.window_seconds < t) ++ [now]
         else (rl.requests id).filter (fun t => now - rl.window_seconds < t))
      else rl.requests s := by
  unfold RateLimiter.is_allowed
  by_cases h : ((rl.requests id).filter (fun t => now - rl.window_seconds < t)).length
      < rl.max_requests <;> by_cases hs : s = id <;> simp [h, hs]

/-- Bound preserved by one `is_allowed` call: if every sender's stored list
is within `max_requests`, it still is afterwards. -/
theorem RateLimiter.length_le_step (rl : RateLimiter) (id : String) (now : Int)
    (hb : ∀ s, (rl.requests s).length ≤ rl.max_requests) :
    ∀ s, ((rl.is_allowed id now).2.requests s).length ≤ (rl.is_allowed id now).2.max_requests := by
  intro s
  have hcfg := (RateLimiter.is_allowed_config rl id now).1
  rw [RateLimiter.is_allowed_requests, hcfg]
  by_cases hs : s = id
  · by_cases h : ((rl.requests id).filter (fun t => now - rl.window_seconds < t)).length
        < rl.max_requests
    · simp only [hs, if_true, h, List.length_append, List.length_cons, List.length_nil,
        ite_true, if_pos]
      omega
    · simp only [hs, if_true, h, ite_false, if_pos, if_neg]
      exact le_trans (List.length_filter_le _ _) (hb id)
  · simp only [hs, if_false, ite_false, if_neg, not_false_iff]
    exact hb s

/-- `applyCalls` never changes the limiter's configuration. -/
theorem RateLimiter.applyCalls_config (calls : List (String × Int)) (rl : RateLimiter) :
    (rl.applyCalls calls).max_requests = rl.max_requests ∧
    (rl.applyCalls calls).window_seconds = rl.window_seconds := by
  induction calls generalizing rl with
  | nil => exact ⟨rfl, rfl⟩
  | cons c rest ih =>
      obtain ⟨c1, c2⟩ := ih (rl.is_allowed c.1 c.2).2
      obtain ⟨d1, d2⟩ := rl.is_allowed_config c.1 c.2
      exact ⟨by rw [RateLimiter.applyCalls, c1, d1], by rw [RateLimiter.applyCalls, c2, d2]⟩

/-- Every state reachable from a fresh limiter keeps every sender's stored
list within `max_requests`. -/
theorem RateLimiter.length_le_reachable (mx : Nat) (w : Int) (calls : List (String × Int)) :
    ∀ s, (((RateLimiter.init mx w).applyCalls calls).requests s).length
      ≤ ((RateLimiter.init mx w).applyCalls calls).max_requests := by
  suffices hgen : ∀ (calls : List (String × Int)) (rl : RateLimiter),
      (∀ s, (rl.requests s).length ≤ rl.max_requests) →
      ∀ s, ((rl.applyCalls calls).requests s).length ≤ (rl.applyCalls calls).max_requests by
    exact hgen calls (RateLimiter.init mx w) (fun s => by simp [RateLimiter.init])
  intro calls
  induction calls with
  | nil => intro rl hb s; exact hb s
  | cons c rest ih =>
      intro rl hb s
      exact ih (rl.is_allowed c.1 c.2).2 (rl.length_le_step c.1 c.2 hb) s

/-- C10 amended: after a call to `is_allowed`, the accessed sender's stored
list contains only timestamps strictly newer than `now` minus the window
(provided the window is positive), and every sender's stored list — pruned
or not — has length at most `max_requests`; but untouched senders' lists
are pruned only lazily, on their own next access. -/
theorem C10_amended_accessed_sender_pruned (mx : Nat) (w : Int) (calls : List (String × Int))
    (id : String) (now : Int) (hw : 0 < w) :
    (∀ t ∈ ((((RateLimiter.init mx w).applyCalls calls).is_allowed id now).2.requests id),
      now - w < t) ∧
    (∀ s, (((((RateLimiter.init mx w).applyCalls calls).is_allowed id now).2.requests s)).length
      ≤ mx) := by
  obtain ⟨hmx, hww⟩ := RateLimiter.applyCalls_config calls (RateLimiter.init mx w)
  have hmx2 : ((RateLimiter.init mx w).applyCalls calls).max_requests = mx := by
    rw [hmx]; rfl
  have hww2 : ((RateLimiter.init mx w).applyCalls calls).window_seconds = w := by
    rw [hww]; rfl
  constructor
  · intro t ht
    set rl := (RateLimiter.init mx w).applyCalls calls with hrl
    unfold RateLimiter.is_allowed at ht
    by_cases h : ((rl.requests id).filter (fun u => now - rl.window_seconds < u)).length
        < rl.max_requests
    · simp only [h, if_pos, if_pos rfl] at ht
      rcases List.mem_append.mp ht with hin | hin
      · have := List.of_mem_filter hin
        rw [hww2] at this
        exact of_decide_eq_true this
      · have : t = now := by simpa using hin
        subst this
        omega
    · simp only [h, if_neg, if_false, if_pos rfl] at ht
      have := List.of_mem_filter ht
      rw [hww2] at this
      exact of_decide_eq_true this
  · intro s
    have hb := RateLimiter.length_le_reachable mx w calls
    have hstep := RateLimiter.length_le_step ((RateLimiter.init mx w).applyCalls calls) id now
      (fun s2 => by rw [hmx2] at hb; rw [hmx2]; exact hb s2)
    have hc := RateLimiter.is_allowed_config ((RateLimiter.init mx w).applyCalls calls) id now
    rw [hc.1, hmx2] at hstep
    exact hstep s

/-- Witness for `C10_amended_accessed_sender_pruned`: sender `"A"` calls at
time 0 and again at time 1 with a 60-second window; the stale check and the
length bound instantiate concretely. -/
theorem C10_amended_accessed_sender_pruned_witness :
    ((1 : Int) - 60 < 0) ∧
    (((((RateLimiter.init 3 60).applyCalls [("A", 0)]).is_allowed "A" 1).2.requests "A").length
      ≤ 3) := by
  have h := C10_amended_accessed_sender_pruned 3 60 [("A", 0)] "A" 1 (by decide)
  exact ⟨h.1 0 (by decide), h.2 "A"⟩

/-- `strLeB` is total. -/
theorem strLeB_total (x : List Char) : ∀ y, strLeB x y = true ∨ strLeB y x = true := by
  induction x with
  | nil => intro y; left; rfl
  | cons a as ih =>
      intro y
      cases y with
      | nil => right; rfl
      | cons b bs =>
          rcases Nat.lt_trichotomy a.toNat b.toNat with h | h | h
          · left; simp [strLeB, h]
          · have h1 : ¬ a.toNat < b.toNat := by omega
            have h2 : ¬ b.toNat < a.toNat := by omega
            rcases ih bs with htl | htl
            · left; simp [strLeB, h1, h2, htl]
            · right; simp [strLeB, h1, h2, htl]
          · right; simp [strLeB, h]

/-- `strLeB` is transitive. -/
theorem strLeB_trans (x : List Char) :
    ∀ y z, strLeB x y = true → strLeB y z = true → strLeB x z = true := by
  induction x with
  | nil => intros; rfl
  | cons a as ih =>
      intro y z hxy hyz
      cases y with
      | nil => simp [strLeB] at hxy
      | cons b bs =>
          cases z with
          | nil => simp [strLeB] at hyz
          | cons c cs =>
              rcases Nat.lt_trichotomy a.toNat b.toNat with hab | hab | hab
              · rcases Nat.lt_trichotomy b.toNat c.toNat with hbc | hbc | hbc
                · have : a.toNat < c.toNat := lt_trans hab hbc
                  simp [strLeB, this]
                · have : a.toNat < c.toNat := by omega
                  simp [strLeB, this]
                · have h1 : ¬ b.toNat < c.toNat := by omega
                  simp [strLeB, h1, hbc] at hyz
              · rcases Nat.lt_trichotomy b.toNat c.toNat with hbc | hbc | hbc
                · have : a.toNat < c.toNat := by omega
                  simp [strLeB, this]
                · have g1 : ¬ a.toNat < b.toNat := by omega
                  have g2 : ¬ b.toNat < a.toNat := by omega
                  have g3 : ¬ b.toNat < c.toNat := by omega
                  have g4 : ¬ c.toNat < b.toNat := by omega
                  have g5 : ¬ a.toNat < c.toNat := by omega
                  have g6 : ¬ c.toNat < a.toNat := by omega
                  simp only [strLeB, if_neg g1, if_neg g2] at hxy
                  simp only [strLeB, if_neg g3, if_neg g4] at hyz
                  simp only [strLeB, if_neg g5, if_neg g6]
                  exact ih bs cs hxy hyz
                · have h1 : ¬ b.toNat < c.toNat := by omega
                  simp [strLeB, h1, hbc] at hyz
              · have h1 : ¬ a.toNat < b.toNat := by omega
                simp [strLeB, h1, hab] at hxy

/-- `strLeB` is antisymmetric. -/
theorem strLeB_antisymm (x : List Char) :
    ∀ y, strLeB x y = true → strLeB y x = true → x = y := by
  induction x with
  | nil =>
      intro y _ hyx
      cases y with
      | nil => rfl
      | cons b bs => simp [strLeB] at hyx
  | cons a as ih =>
      intro y hxy hyx
      cases y with
      | nil => simp [strLeB] at hxy
      | cons b bs =>
          rcases Nat.lt_trichotomy a.toNat b.toNat with h | h | h
          · have h2 : ¬ b.toNat < a.toNat := by omega
            simp [strLeB, h, h2] at hyx
          · have g1 : ¬ a.toNat < b.toNat := by omega
            have g2 : ¬ b.toNat < a.toNat := by omega
            simp only [strLeB, if_neg g1, if_neg g2] at hxy
            simp only [strLeB, if_neg g2, if_neg g1] at hyx
            have htl : as = bs := ih bs hxy hyx
            have hhd : a = b := Char.ofNat_toNat a ▸ Char.ofNat_toNat b ▸ congrArg Char.ofNat h
            rw [hhd, htl]
          · have h2 : ¬ a.toNat < b.toNat := by omega
            simp [strLeB, h2, h] at hxy

/-- Two strings with equal character data are equal. -/
theorem string_eq_of_data (a b : String) (h : a.data = b.data) : a = b := by
  cases a
  cases b
  exact congrArg String.mk h

/-- Strict key order on object bindings: key order plus distinct keys. -/
def keyLT (a b : String × JValue) : Prop := keyLE a b ∧ a.1 ≠ b.1

instance : IsTotal (String × JValue) keyLE :=
  ⟨fun a b => strLeB_total a.1.data b.1.data⟩

instance : IsTrans (String × JValue) keyLE :=
  ⟨fun a b c hab hbc => strLeB_trans a.1.data b.1.data c.1.data hab hbc⟩

instance : IsAntisymm (String × JValue) keyLT :=
  ⟨fun a b hab hba => absurd
    (string_eq_of_data a.1 b.1 (strLeB_antisymm a.1.data b.1.data hab.1 hba.1)) hab.2⟩

/-- A key-sorted binding list with pairwise-distinct keys is sorted for the
strict key order. -/
theorem sorted_keyLT_of_nodup {l : List (String × JValue)} (hs : List.Sorted keyLE l)
    (hnd : (l.map Prod.fst).Nodup) : List.Sorted keyLT l := by
  have hne : l.Pairwise (fun a b => a.1 ≠ b.1) := (List.pairwise_map).mp hnd
  exact (hs.and hne).imp (fun h => ⟨h.1, h.2⟩)

/-- Key-sorting is invariant under permutation of the bindings as long as
the keys are pairwise distinct: the canonical encoding does not depend on
dict iteration order. -/
theorem sortFields_eq_of_perm {l1 l2 : List (String × JValue)} (hp : l1.Perm l2)
    (hnd : (l1.map Prod.fst).Nodup) : sortFields l1 = sortFields l2 := by
  have hp2 : (sortFields l1).Perm (sortFields l2) :=
    (List.perm_insertionSort keyLE l1).trans (hp.trans (List.perm_insertionSort keyLE l2).symm)
  have hnd1 : ((sortFields l1).map Prod.fst).Nodup :=
    (((List.perm_insertionSort keyLE l1).map Prod.fst).nodup_iff).mpr hnd
  have hnd2 : ((sortFields l2).map Prod.fst).Nodup :=
    (((List.perm_insertionSort keyLE l2).map Prod.fst).nodup_iff).mpr
      ((hp.map Prod.fst).nodup_iff.mp hnd)
  exact List.eq_of_perm_of_sorted hp2
    (sorted_keyLT_of_nodup (List.sorted_insertionSort keyLE l1) hnd1)
    (sorted_keyLT_of_nodup (List.sorted_insertionSort keyLE l2) hnd2)

/-- `canonFields` canonicalises each value in place. -/
theorem canonFields_toList : (fs : JFields) →
    (canonFields fs).toList = fs.toList.map (fun p => (p.1, canon p.2))
  | .fnil => rfl
  | .fcons k v tl => by
      simp [canonFields, JFields.toList, canonFields_toList tl]
termination_by structural fs => fs

/-- The canonical (sorted) binding list of a payload is invariant under
reordering its bindings, provided the keys are pairwise distinct. -/
theorem sortFields_canonFields_eq {p1 p2 : JFields} (hp : p1.toList.Perm p2.toList)
    (hnd : (p1.toList.map Prod.fst).Nodup) :
    sortFields ((canonFields p1).toList) = sortFields ((canonFields p2).toList) := by
  apply sortFields_eq_of_perm
  · rw [canonFields_toList, canonFields_toList]
    exact hp.map _
  · rw [canonFields_toList]
    have hmm : (p1.toList.map (fun p => (p.1, canon p.2))).map Prod.fst
        = p1.toList.map Prod.fst := by
      rw [List.map_map]
      rfl
    rw [hmm]
    exact hnd

/-- A signed envelope. -/
def c8A : A2AMessage :=
  { message_id := "id-1"
    sender_id := "alice"
    recipient_id := "bob"
    message_type := .task_request
    timestamp := "2025-01-01T00:00:04"
    payload := .fcons "task_id" (.jstr "t-8") .fnil
    requires_response := true
    signature := none }

/-- `c8A` with only the `message_id` changed: equal on all five fields the
claim lists as the complete signed set. -/
def c8B : A2AMessage := { c8A with message_id := "id-2" }

set_option maxRecDepth 8192 in
/-- C8 counterexample: the signature input is not computed over only the
five claimed fields — `sign_message` also serialises `message_id`, so two
envelopes equal on sender, recipient, kind, timestamp and payload can still
have different signed serializations. -/
theorem C8_message_id_also_signed :
    c8A.sender_id = c8B.sender_id ∧
    c8A.recipient_id = c8B.recipient_id ∧
    c8A.message_type = c8B.message_type ∧
    c8A.timestamp = c8B.timestamp ∧
    c8A.payload = c8B.payload ∧
    signedSerialization c8A ≠ signedSerialization c8B := by decide

/-- C8 amended: the signed serialization is computed over exactly
`message_id`, `sender_id`, `recipient_id`, `message_type`, `timestamp` and
`payload` — excluding `signature` and `requires_response` — with a
sorted-keys canonical encoding, so any two envelopes equal on those six
fields (payload compared as a map with distinct keys, up to iteration
order) produce the identical signed serialization. -/
theorem C8_amended_signature_covers_six_fields (m1 m2 : A2AMessage)
    (h1 : m1.message_id = m2.message_id) (h2 : m1.sender_id = m2.sender_id)
    (h3 : m1.recipient_id = m2.recipient_id) (h4 : m1.message_type = m2.message_type)
    (h5 : m1.timestamp = m2.timestamp) (hp : m1.payload.toList.Perm m2.payload.toList)
    (hnd : (m1.payload.toList.map Prod.fst).Nodup) :
    signedSerialization m1 = signedSerialization m2 := by
  have hsort := sortFields_canonFields_eq hp hnd
  unfold signedSerialization dumpsSorted signedMessageData
  rw [h1, h2, h3, h4, h5]
  simp only [canon, canonFields, JFields.toList, JFields.ofList]
  rw [hsort]

/-- `c1Base` with its payload bindings listed in the opposite order. -/
def c8Reordered : A2AMessage :=
  { c1Base with payload := .fcons "task_type" (.jstr "add") (.fcons "task_id" (.jstr "t-1") .fnil) }

/-- Witness for `C8_amended_signature_covers_six_fields`: reordering the
payload bindings of `c1Base` leaves the signed serialization unchanged. -/
theorem C8_amended_signature_covers_six_fields_witness :
    signedSerialization c1Base = signedSerialization c8Reordered :=
  C8_amended_signature_covers_six_fields c1Base c8Reordered rfl rfl rfl rfl rfl
    (by decide) (by decide)
